import Mathlib

/-!
# Verification of `pkg/server/server.go` (janus API gateway, server lifecycle core)

Shallow embedding of the server lifecycle and hot-reload control loop:
the configuration watch loop (`listenProviders`), the reconfiguration
orchestrator (`handleEvent`), router construction (`createRouter`,
`startHTTPServers`), and the shutdown path (`Close`, the cancellation
watcher installed by `StartWithContext`).

Route specifications (`*api.Spec`) are opaque to this core beyond structural
equality (`reflect.DeepEqual`), so the embedding is polymorphic in a type
`Spec` with decidable equality.  Routers are identified by the order in which
they are built (a `Nat` id drawn from a fresh-name supply), since the core
never inspects a router beyond handing it routes and installing it.

Side effects of the Go code (plugin event emission, registry rebinding, route
materialization, handler installation) are recorded both as explicit state
updates and as an ordered trace of `Action`s, so that ordering contracts
("bind before materialize", "install last") are provable statements about
the produced trace.
-/

set_option linter.unusedSectionVars false

namespace Janus

/-- Embeds `api.ConfigurationChanged`: the change message delivered on
`configurationChan`.  `Configurations` is the Go slice `[]*api.Spec`;
`none` models a `nil` slice. -/
structure ConfigurationChanged (Spec : Type) where
  Configurations : Option (List Spec)
  deriving DecidableEq

/-- Observable steps performed by `handleEvent` (the reconfiguration
orchestrator), in program order:
* `emitStartup specs` — `plugin.EmitEvent(plugin.StartupEvent, …)`;
* `emitReload specs` — `plugin.EmitEvent(plugin.ReloadEvent, …)`;
* `createRouter rid` — `s.createRouter()` building the fresh router `rid`;
* `updateRouter rid` — `s.register.UpdateRouter(newRouter)`;
* `registerAPIs specs` — `s.defLoader.RegisterAPIs(specs)` materializing
  the snapshot onto the router the register is currently bound to;
* `installHandler rid` — `s.server.Handler = newRouter`. -/
inductive Action (Spec : Type) where
  | emitStartup (specs : List Spec)
  | emitReload (specs : List Spec)
  | createRouter (rid : Nat)
  | updateRouter (rid : Nat)
  | registerAPIs (specs : List Spec)
  | installHandler (rid : Nat)
  deriving DecidableEq

/-- The mutable fields of `server.Server` that the watch loop and the
orchestrator touch, plus the router bookkeeping needed to observe them:
* `started` — the cold-start/warm-reload flag;
* `currentConfigurations` — `s.currentConfigurations` (`none` = `nil` slice);
* `registryRouter` — the id of the router `s.register` is bound to;
* `liveHandler` — the id of the router installed as `s.server.Handler`;
* `nextRouter` — fresh-name supply for routers built by `createRouter`;
* `routes rid` — the snapshot materialized onto router `rid`
  (`RegisterAPIs` fully replaces prior bindings on the bound router). -/
structure SState (Spec : Type) where
  started : Bool
  currentConfigurations : Option (List Spec)
  registryRouter : Nat
  liveHandler : Nat
  nextRouter : Nat
  routes : Nat → List Spec

variable {Spec : Type} [DecidableEq Spec]

/-- Embeds `(*Server).handleEvent(specs []*api.Spec)`, server.go lines 229-258,
returning the updated state and the trace of observable steps in program
order.

Cold start (`!s.started`): build the `OnStartup` event (the `MongoSession`
attachment is payload detail carried by `emitStartup`), emit it, materialize
the snapshot on the current router of the registry, set `started = true`.

Warm reload (`s.started`): build a brand-new router, rebind the register to
it, materialize the snapshot (which lands on the newly bound router), emit
the `Reload` event, then install the new router as `s.server.Handler`. -/
def handleEvent (s : SState Spec) (specs : List Spec) :
    SState Spec × List (Action Spec) :=
  if !s.started then
    let s1 := { s with
      routes := fun rid => if rid = s.registryRouter then specs else s.routes rid }
    let s2 := { s1 with started := true }
    (s2, [Action.emitStartup specs, Action.registerAPIs specs])
  else
    let nid := s.nextRouter
    let s1 := { s with
      nextRouter := nid + 1,
      routes := fun rid => if rid = nid then [] else s.routes rid }
    let s2 := { s1 with registryRouter := nid }
    let s3 := { s2 with
      routes := fun rid => if rid = s2.registryRouter then specs else s2.routes rid }
    let s4 := { s3 with liveHandler := nid }
    (s4, [Action.createRouter nid, Action.updateRouter nid,
          Action.registerAPIs specs, Action.emitReload specs,
          Action.installHandler nid])

/-- Iterated `handleEvent` over a sequence of accepted (non-duplicate)
snapshots, concatenating the traces in arrival order. -/
def handleEvents (s : SState Spec) : List (List Spec) → SState Spec × List (Action Spec)
  | [] => (s, [])
  | specs :: rest =>
    let p := handleEvent s specs
    let q := handleEvents p.1 rest
    (q.1, p.2 ++ q.2)

/-- The result of the receive case `configMsg, ok := <-s.configurationChan`:
`closed` is `ok == false`, `msg m` is a delivered message. -/
inductive ChanRead (Spec : Type) where
  | closed
  | msg (m : ConfigurationChanged Spec)
  deriving DecidableEq

/-- The branch taken by the `select` in `listenProviders`. -/
inductive SelectCase (Spec : Type) where
  | stop
  | recv (r : ChanRead Spec)
  deriving DecidableEq

/-- Whether one iteration of `listenProviders` returns (`terminate`) or loops
(`next`). -/
inductive LoopOutcome where
  | terminate
  | next
  deriving DecidableEq

/-- The body of one iteration of `(*Server).listenProviders`, server.go lines
163-182, after the `select` has resolved to branch `c`:
* stop branch: `return`;
* receive with `!ok || configMsg.Configurations == nil`: `return`;
* duplicate snapshot (`reflect.DeepEqual(s.currentConfigurations,
  configMsg.Configurations)`): skip, `continue`;
* otherwise: replace `s.currentConfigurations` and invoke `handleEvent`. -/
def listenStep (s : SState Spec) (c : SelectCase Spec) :
    SState Spec × List (Action Spec) × LoopOutcome :=
  match c with
  | SelectCase.stop => (s, [], LoopOutcome.terminate)
  | SelectCase.recv ChanRead.closed => (s, [], LoopOutcome.terminate)
  | SelectCase.recv (ChanRead.msg m) =>
    match m.Configurations with
    | none => (s, [], LoopOutcome.terminate)
    | some cfgs =>
      if s.currentConfigurations = some cfgs then
        (s, [], LoopOutcome.next)
      else
        let s1 := { s with currentConfigurations := some cfgs }
        let p := handleEvent s1 cfgs
        (p.1, p.2, LoopOutcome.next)

/-- Embeds `(*Server).listenProviders` run against a finite schedule of resolved
select branches: iterates `listenStep` and stops at the first iteration that
terminates (any remaining schedule entries are never processed). -/
def listenProviders (s : SState Spec) : List (SelectCase Spec) → SState Spec × List (Action Spec)
  | [] => (s, [])
  | c :: cs =>
    let p := listenStep s c
    match p.2.2 with
    | LoopOutcome.terminate => (p.1, p.2.1)
    | LoopOutcome.next =>
      let q := listenProviders p.1 cs
      (q.1, p.2.1 ++ q.2)

/-- The Go `select` at the head of `listenProviders`, resolved against channel
readiness.  `stopReady` says a value is ready on `stop`; `pending` is what a
receive on `s.configurationChan` would yield right now (`none` = the receive
would block).  Per the Go specification, when several cases are ready the
`select` chooses one of them via uniform pseudo-random selection with no
priority; `sched` resolves that choice (`true` picks the stop case).  The
result is `none` when neither case is ready (the statement blocks). -/
def selectBranch (stopReady : Bool) (pending : Option (ChanRead Spec)) (sched : Bool) :
    Option (SelectCase Spec) :=
  match stopReady, pending with
  | true, none => some SelectCase.stop
  | false, some r => some (SelectCase.recv r)
  | true, some r => if sched then some SelectCase.stop else some (SelectCase.recv r)
  | false, none => none

/-- Number of lifecycle events of the Startup kind in a trace. -/
def countStartup (tr : List (Action Spec)) : Nat :=
  tr.countP fun a => match a with
    | Action.emitStartup _ => true
    | _ => false

/-- Number of lifecycle events of the Reload kind in a trace. -/
def countReload (tr : List (Action Spec)) : Nat :=
  tr.countP fun a => match a with
    | Action.emitReload _ => true
    | _ => false

/-- Number of invocations of the reconfiguration orchestrator recorded in a
trace.  Each `handleEvent` call emits exactly one lifecycle event
(`emitStartup` on the cold branch, `emitReload` on the warm branch) and no
other step emits events, so counting events counts orchestrator calls. -/
def orchestratorCalls (tr : List (Action Spec)) : Nat :=
  countStartup tr + countReload tr

/-! ## Router construction (`createRouter`, `startHTTPServers`)

The `router` package is a collaborator outside the core; the core only sets
its not-found handler, pushes middleware in a fixed order, counts its routes
and registers a route with `Any`.  Handlers are identified symbolically:
`errors.NotFound` (the import aliases `errors` and `httpErrors` name the same
package `pkg/errors`, so `errors.NotFound` and `httpErrors.NotFound` are the
same function). -/

/-- Handlers the lifecycle core installs on a router. -/
inductive Handler where
  | notFound
  deriving DecidableEq

/-- The middleware constructors invoked by `createRouter`, in the order they
are passed to `r.Use`.  `openTracing` records the TLS-dependent mode
(`middleware.NewOpenTracing(s.globalConfig.TLS.IsHTTPS())`). -/
inductive Middleware where
  | stats
  | logger
  | recovery
  | openTracing (isHTTPS : Bool)
  | requestID
  deriving DecidableEq

/-- A route registered directly on the router by the core (`r.Any(path, h)`
matches every HTTP method on `path`). -/
structure RouteEntry where
  path : String
  handler : Handler
  deriving DecidableEq

/-- The capability surface of `router.Router` that the core uses. -/
structure Router where
  notFoundHandler : Handler
  middlewares : List Middleware
  routeList : List RouteEntry
  deriving DecidableEq

/-- Embeds `r.Use(ms...)`: appends middleware to the chain in argument order. -/
def Router.use (r : Router) (ms : List Middleware) : Router :=
  { r with middlewares := r.middlewares ++ ms }

/-- Embeds `r.Any(path, h)`: registers `h` for every HTTP method on `path`. -/
def Router.any (r : Router) (path : String) (h : Handler) : Router :=
  { r with routeList := r.routeList ++ [RouteEntry.mk path h] }

/-- Embeds `r.RoutesCount()`. -/
def Router.routesCount (r : Router) : Nat :=
  r.routeList.length

/-- The fields of `config.Specification` consulted by `createRouter`:
`RequestID` and `TLS.IsHTTPS()` (the latter modelled as the Bool it
evaluates to, since the `config` package is outside the core). -/
structure Specification where
  requestID : Bool
  tlsIsHTTPS : Bool
  deriving DecidableEq

/-- Embeds `(*Server).createRouter()`, server.go lines 211-227: a fresh chi router
with `NotFoundHandler = errors.NotFound`, then
`r.Use(NewStats, NewLogger, NewRecovery, NewOpenTracing(TLS.IsHTTPS()))`,
then `r.Use(middleware.RequestID)` when `RequestID` is configured. -/
def createRouter (cfg : Specification) : Router :=
  let r : Router :=
    { notFoundHandler := Handler.notFound, middlewares := [], routeList := [] }
  let r := r.use [Middleware.stats, Middleware.logger, Middleware.recovery,
                  Middleware.openTracing cfg.tlsIsHTTPS]
  if cfg.requestID then r.use [Middleware.requestID] else r

/-- The router-construction prefix of `(*Server).startHTTPServers`, server.go
lines 129-134: build the initial router and, because some routers panic on an
empty route table, add one dummy 404 route when `RoutesCount() < 1` — all
before the router is handed to `listenAndServe`. -/
def startHTTPServersRouter (cfg : Specification) : Router :=
  let r := createRouter cfg
  if r.routesCount < 1 then r.any "/" Handler.notFound else r

/-- The HTTP status an installed handler responds with.  Modelled from the
spec: both not-found handlers answer 404 ("a 404 response for unmatched
routes is always guaranteed"); `pkg/errors.NotFound` is not under src/. -/
def handlerStatus : Handler → Nat
  | Handler.notFound => 404

/-- Modelled from the spec: request dispatch by the Router collaborator
(`pkg/router`, not under src/) — match the request path against the
registered routes (a route added by `Any` matches every method on its path);
with no match, invoke the not-found handler of the router. -/
def Router.dispatch (r : Router) (path : String) : Nat :=
  match r.routeList.find? (fun e => e.path = path) with
  | some e => handlerStatus e.handler
  | none => handlerStatus r.notFoundHandler

/-! ## Shutdown (`Close`, the cancellation watcher, the hard-deadline
supervisor) -/

/-- The hard deadline in `(*Server).Close`, in seconds:
`context.WithTimeout(context.Background(), 10*time.Second)`. -/
def closeHardDeadlineSeconds : Nat := 10

/-- The two ways `ctx.Done()` fires for the supervisory goroutine in `Close`:
the deferred `cancel()` ran (the underlying close completed and `Close`
returned), or the 10-second deadline elapsed first. -/
inductive CtxErr where
  | canceled
  | deadlineExceeded
  deriving DecidableEq

/-- What the supervisory goroutine does after `<-ctx.Done()`. -/
inductive SupervisorOutcome where
  | quietExit
  | abort
  deriving DecidableEq

/-- The supervisory goroutine body in `Close`, server.go lines 114-121:
`return` on `context.Canceled`; `panic("Timeout while stopping janus, …")`
on `context.DeadlineExceeded`. -/
def closeSupervisor : CtxErr → SupervisorOutcome
  | CtxErr.canceled => SupervisorOutcome.quietExit
  | CtxErr.deadlineExceeded => SupervisorOutcome.abort

/-- The `ctx.Err()` the supervisory goroutine observes, as a function of how
long the teardown in `Close` (channel closes plus `s.server.Close()`) takes:
the deferred `cancel()` fires when `Close` returns, so completion strictly
before the deadline yields `Canceled`, and otherwise the deadline fires
first and the error is `DeadlineExceeded`. -/
def closeCtxErr (closeSeconds : Nat) : CtxErr :=
  if closeSeconds < closeHardDeadlineSeconds then CtxErr.canceled
  else CtxErr.deadlineExceeded

/-- The channel-closing state of a `Server`: whether `close(s.stopChan)` and
`close(s.configurationChan)` have already run. -/
structure CloseState where
  stopChanClosed : Bool
  configurationChanClosed : Bool
  deriving DecidableEq

/-- One invocation of `(*Server).Close`, server.go lines 111-127, restricted
to its channel teardown: `close(s.stopChan)` then
`close(s.configurationChan)`.  Per the Go specification, `close` on an
already-closed channel panics; `none` models that panic. -/
def Close (s : CloseState) : Option CloseState :=
  if s.stopChanClosed then none
  else
    let s1 : CloseState := { s with stopChanClosed := true }
    if s1.configurationChanClosed then none
    else some { s1 with configurationChanClosed := true }

/-- The cancellation watcher installed by `StartWithContext`, server.go lines
61-72: `defer s.Close()`, wait for `ctx.Done()`, sleep the grace period, then
`s.Close()` — so on context cancellation `Close` runs twice, first the direct
call and then the deferred one. -/
def cancellationWatcher (s : CloseState) : Option CloseState :=
  (Close s).bind Close

/-- The mechanism by which server.go line 255 publishes the new router to the
request-serving goroutines: the plain struct-field assignment
`s.server.Handler = newRouter`.  The file contains no `sync/atomic`
operation and no mutex around this field, and `net/http` reads
`srv.Handler` from handler goroutines without synchronization against such
a write. -/
inductive InstallMechanism where
  | plainFieldWrite
  | atomicPointerSwap
  | mutexGuardedWrite
  deriving DecidableEq

/-- The installation mechanism actually used at server.go line 255. -/
def handlerInstallMechanism : InstallMechanism :=
  InstallMechanism.plainFieldWrite

/-! ## Helper lemmas -/

theorem handleEvent_started (s : SState Spec) (specs : List Spec) :
    ((handleEvent s specs).1).started = true := by
  unfold handleEvent
  cases h : s.started <;> simp [h]

theorem handleEvent_currentConfigurations (s : SState Spec) (specs : List Spec) :
    ((handleEvent s specs).1).currentConfigurations = s.currentConfigurations := by
  unfold handleEvent
  cases h : s.started <;> simp [h]

theorem handleEvent_counts (s : SState Spec) (specs : List Spec) :
    (s.started = false →
      countStartup (handleEvent s specs).2 = 1 ∧
      countReload (handleEvent s specs).2 = 0) ∧
    (s.started = true →
      countStartup (handleEvent s specs).2 = 0 ∧
      countReload (handleEvent s specs).2 = 1) := by
  unfold handleEvent countStartup countReload
  constructor <;> intro h <;> simp [h, List.countP_cons]

theorem countStartup_append (a b : List (Action Spec)) :
    countStartup (a ++ b) = countStartup a + countStartup b := by
  simp [countStartup, List.countP_append]

theorem countReload_append (a b : List (Action Spec)) :
    countReload (a ++ b) = countReload a + countReload b := by
  simp [countReload, List.countP_append]

theorem handleEvent_calls_one (s : SState Spec) (specs : List Spec) :
    orchestratorCalls (handleEvent s specs).2 = 1 := by
  unfold orchestratorCalls
  cases h : s.started
  · have := (handleEvent_counts s specs).1 h
    omega
  · have := (handleEvent_counts s specs).2 h
    omega

theorem handleEvents_warm (css : List (List Spec)) :
    ∀ s : SState Spec, s.started = true →
      countStartup (handleEvents s css).2 = 0 ∧
      countReload (handleEvents s css).2 = css.length ∧
      ((handleEvents s css).1).started = true := by
  induction css with
  | nil =>
    intro s h
    exact ⟨rfl, rfl, h⟩
  | cons c rest ih =>
    intro s h
    have hc := (handleEvent_counts s c).2 h
    have hs := handleEvent_started s c
    have ihr := ih (handleEvent s c).1 hs
    have e2 : (handleEvents s (c :: rest)).2
        = (handleEvent s c).2 ++ (handleEvents (handleEvent s c).1 rest).2 := rfl
    have e1 : (handleEvents s (c :: rest)).1
        = (handleEvents (handleEvent s c).1 rest).1 := rfl
    refine ⟨?_, ?_, ?_⟩
    · rw [e2, countStartup_append, hc.1, ihr.1]
    · rw [e2, countReload_append, hc.2, ihr.2.1, List.length_cons]
      omega
    · rw [e1]
      exact ihr.2.2

theorem listenProviders_cons_next (s s' : SState Spec) (tr : List (Action Spec))
    (c : SelectCase Spec) (cs : List (SelectCase Spec))
    (h : listenStep s c = (s', tr, LoopOutcome.next)) :
    listenProviders s (c :: cs)
      = ((listenProviders s' cs).1, tr ++ (listenProviders s' cs).2) := by
  rw [listenProviders, h]

theorem listenProviders_cons_terminate (s s' : SState Spec) (tr : List (Action Spec))
    (c : SelectCase Spec) (cs : List (SelectCase Spec))
    (h : listenStep s c = (s', tr, LoopOutcome.terminate)) :
    listenProviders s (c :: cs) = (s', tr) := by
  rw [listenProviders, h]

theorem listenStep_dup (s : SState Spec) (cfgs : List Spec)
    (h : s.currentConfigurations = some cfgs) :
    listenStep s (SelectCase.recv (ChanRead.msg ⟨some cfgs⟩))
      = (s, [], LoopOutcome.next) := by
  simp [listenStep, h]

/-- A run of consecutive structurally equal snapshots, all equal to the
currently held configuration, leaves the state untouched and produces no
actions at all. -/
theorem listenProviders_dup (cfgs : List Spec) (n : Nat) :
    ∀ s : SState Spec, s.currentConfigurations = some cfgs →
      listenProviders s
        (List.replicate n (SelectCase.recv (ChanRead.msg ⟨some cfgs⟩))) = (s, []) := by
  induction n with
  | zero =>
    intro s _
    rfl
  | succ m ih =>
    intro s h
    rw [List.replicate_succ,
        listenProviders_cons_next s s [] _ _ (listenStep_dup s cfgs h),
        ih s h]
    rfl

/-! ## Concrete states for witnesses and counterexamples -/

/-- A server state mid-way through its life: started, with one router built
and installed. -/
def warmState : SState Nat :=
  { started := true
    currentConfigurations := none
    registryRouter := 0
    liveHandler := 0
    nextRouter := 1
    routes := fun _ => [] }

/-- A freshly constructed server state, before the first snapshot. -/
def coldState : SState Nat :=
  { started := false
    currentConfigurations := none
    registryRouter := 0
    liveHandler := 0
    nextRouter := 1
    routes := fun _ => [] }

/-- A started server state currently holding the snapshot `[1]`. -/
def dupState : SState Nat :=
  { started := true
    currentConfigurations := some [1]
    registryRouter := 1
    liveHandler := 1
    nextRouter := 2
    routes := fun _ => [] }

/-! ## Claim theorems -/

/-- C1: on a warm reload (`started == true`), for every accepted
non-duplicate snapshot the orchestrator performs, in this order: build a
brand-new router, rebind the route registry to it before materializing any
routes, materialize every entry of the snapshot onto the new router, emit
the Reload event, and only then install the new router as the live handler
(the installation is the last step, never before materialization and event
emission complete); afterwards the live handler is the freshly built router,
distinct from the previous one, carrying exactly the routes of the
snapshot. -/
theorem warm_reload_install_last (s : SState Spec) (specs : List Spec)
    (hstarted : s.started = true) (hfresh : s.liveHandler < s.nextRouter) :
    (handleEvent s specs).2 =
      [Action.createRouter s.nextRouter, Action.updateRouter s.nextRouter,
       Action.registerAPIs specs, Action.emitReload specs,
       Action.installHandler s.nextRouter] ∧
    ((handleEvent s specs).1).liveHandler = s.nextRouter ∧
    ((handleEvent s specs).1).liveHandler ≠ s.liveHandler ∧
    ((handleEvent s specs).1).registryRouter = ((handleEvent s specs).1).liveHandler ∧
    ((handleEvent s specs).1).routes (((handleEvent s specs).1).liveHandler) = specs := by
  unfold handleEvent
  simp [hstarted]
  exact hfresh.ne'

/-- C1 witness: the warm-reload ordering theorem evaluated on `warmState`
and the snapshot `[1, 2]`. -/
theorem warm_reload_install_last_witness :
    (handleEvent warmState [1, 2]).2 =
      [Action.createRouter warmState.nextRouter, Action.updateRouter warmState.nextRouter,
       Action.registerAPIs [1, 2], Action.emitReload [1, 2],
       Action.installHandler warmState.nextRouter] ∧
    ((handleEvent warmState [1, 2]).1).liveHandler = warmState.nextRouter ∧
    ((handleEvent warmState [1, 2]).1).liveHandler ≠ warmState.liveHandler ∧
    ((handleEvent warmState [1, 2]).1).registryRouter
      = ((handleEvent warmState [1, 2]).1).liveHandler ∧
    ((handleEvent warmState [1, 2]).1).routes (((handleEvent warmState [1, 2]).1).liveHandler)
      = [1, 2] :=
  warm_reload_install_last warmState [1, 2] rfl (by decide)

/-- C2: a change message carrying a non-nil snapshot structurally equal to
the current configuration is discarded: the state (in particular
`currentConfigurations`) is unchanged, no action is performed and the
orchestrator is not invoked; and over any run of consecutive structurally
equal snapshots the orchestrator is invoked at most once. -/
theorem dedup_discards_duplicates (s : SState Spec) (cfgs : List Spec) (n : Nat) :
    (s.currentConfigurations = some cfgs →
      listenStep s (SelectCase.recv (ChanRead.msg ⟨some cfgs⟩))
        = (s, [], LoopOutcome.next)) ∧
    orchestratorCalls (listenProviders s
      (List.replicate n (SelectCase.recv (ChanRead.msg ⟨some cfgs⟩)))).2 ≤ 1 := by
  constructor
  · intro h
    exact listenStep_dup s cfgs h
  · by_cases h : s.currentConfigurations = some cfgs
    · rw [listenProviders_dup cfgs n s h]
      simp [orchestratorCalls, countStartup, countReload]
    · cases n with
      | zero => simp [listenProviders, orchestratorCalls, countStartup, countReload]
      | succ m =>
        have hstep : listenStep s (SelectCase.recv (ChanRead.msg ⟨some cfgs⟩))
            = ((handleEvent { s with currentConfigurations := some cfgs } cfgs).1,
               (handleEvent { s with currentConfigurations := some cfgs } cfgs).2,
               LoopOutcome.next) := by
          simp [listenStep, h]
        have hcur : ((handleEvent { s with currentConfigurations := some cfgs } cfgs).1).currentConfigurations
            = some cfgs := by
          rw [handleEvent_currentConfigurations]
        rw [List.replicate_succ,
            listenProviders_cons_next _ _ _ _ _ hstep,
            listenProviders_dup cfgs m _ hcur]
        simp [handleEvent_calls_one]

/-- C2 witness: the dedup theorem evaluated on `dupState` (which holds `[1]`)
against a run of three messages all carrying `[1]`. -/
theorem dedup_discards_duplicates_witness :
    listenStep dupState (SelectCase.recv (ChanRead.msg ⟨some [1]⟩))
      = (dupState, [], LoopOutcome.next) ∧
    orchestratorCalls (listenProviders dupState
      (List.replicate 3 (SelectCase.recv (ChanRead.msg ⟨some [1]⟩)))).2 ≤ 1 :=
  ⟨(dedup_discards_duplicates dupState [1] 3).1 rfl,
   (dedup_discards_duplicates dupState [1] 3).2⟩

/-- C3: over any nonempty sequence of accepted non-duplicate snapshots
starting from a not-yet-started server, the Startup event is emitted exactly
once (by the first snapshot, which also flips `started` from false to true),
and the remaining snapshots emit exactly one Reload event each (so
`rest.length` Reload events in total) and zero additional Startup events. -/
theorem cold_start_once (s : SState Spec) (c : List Spec) (rest : List (List Spec))
    (h : s.started = false) :
    countStartup (handleEvents s (c :: rest)).2 = 1 ∧
    countReload (handleEvents s (c :: rest)).2 = rest.length ∧
    countStartup (handleEvent s c).2 = 1 ∧
    ((handleEvent s c).1).started = true ∧
    ((handleEvents s (c :: rest)).1).started = true := by
  have hc := (handleEvent_counts s c).1 h
  have hs := handleEvent_started s c
  have hw := handleEvents_warm rest (handleEvent s c).1 hs
  have e2 : (handleEvents s (c :: rest)).2
      = (handleEvent s c).2 ++ (handleEvents (handleEvent s c).1 rest).2 := rfl
  have e1 : (handleEvents s (c :: rest)).1
      = (handleEvents (handleEvent s c).1 rest).1 := rfl
  refine ⟨?_, ?_, hc.1, hs, ?_⟩
  · rw [e2, countStartup_append, hc.1, hw.1]
  · rw [e2, countReload_append, hc.2, hw.2.1]
    omega
  · rw [e1]
    exact hw.2.2

/-- C3 witness: the cold-start-once theorem evaluated on `coldState` with the
snapshot sequence `[[1], [1, 2]]`. -/
theorem cold_start_once_witness :
    countStartup (handleEvents coldState [[1], [1, 2]]).2 = 1 ∧
    countReload (handleEvents coldState [[1], [1, 2]]).2 = [[1, 2]].length ∧
    countStartup (handleEvent coldState [1]).2 = 1 ∧
    ((handleEvent coldState [1]).1).started = true ∧
    ((handleEvents coldState [[1], [1, 2]]).1).started = true :=
  cold_start_once coldState [1] [[1, 2]] rfl

/-- C4: the code does NOT install the new handler atomically — the warm-reload
installation at server.go line 255 is the plain unsynchronized field write
`s.server.Handler = newRouter`, not an atomic pointer swap and not a
mutex-guarded write, while request-serving goroutines read the same field
concurrently.  This contradicts the claim (and the normative requirement of
the spec), which the design notes of the spec themselves flag as the
unsynchronized handler swap of the source. -/
theorem handler_install_unsynchronized :
    handlerInstallMechanism = InstallMechanism.plainFieldWrite ∧
    handlerInstallMechanism ≠ InstallMechanism.atomicPointerSwap ∧
    handlerInstallMechanism ≠ InstallMechanism.mutexGuardedWrite := by
  refine ⟨rfl, ?_, ?_⟩ <;> intro hcontra <;> exact InstallMechanism.noConfusion hcontra

/-- C5: `Close` races its teardown against the fixed 10-second hard deadline:
the supervisory goroutine aborts the process (panics) exactly when the
underlying close has not completed by the deadline (`ctx.Err()` is
`DeadlineExceeded`), and exits quietly when the deferred `cancel()` fired
first because close completed within the deadline. -/
theorem close_hard_deadline (d : Nat) :
    closeHardDeadlineSeconds = 10 ∧
    closeSupervisor (closeCtxErr d)
      = (if d < closeHardDeadlineSeconds then SupervisorOutcome.quietExit
         else SupervisorOutcome.abort) := by
  refine ⟨rfl, ?_⟩
  unfold closeCtxErr
  split <;> rfl

/-- C6 counterexample: with the stop signal AND a pending change message both
ready, and the pseudo-random choice of the Go `select` (which has no
priority) resolving to the receive case, the watch loop processes the
pending message — it performs the reconfiguration actions and loops — rather
than taking the stop branch and terminating.  So "stop wins when both are
ready" is false at this input. -/
theorem stop_priority_counterexample :
    selectBranch true (some (ChanRead.msg ⟨some [7]⟩)) false
      = some (SelectCase.recv (ChanRead.msg (⟨some [7]⟩ : ConfigurationChanged Nat))) ∧
    (listenStep warmState (SelectCase.recv (ChanRead.msg ⟨some [7]⟩))).2.2
      = LoopOutcome.next ∧
    (listenStep warmState (SelectCase.recv (ChanRead.msg ⟨some [7]⟩))).2.1 ≠ [] := by
  refine ⟨rfl, rfl, ?_⟩
  intro hcontra
  simp [listenStep, warmState, handleEvent] at hcontra

/-- C6 (amended): when both cases are ready the branch is resolved by the
pseudo-random scheduler choice of the Go `select`, with no priority; whenever
that choice (or stop being the only ready case) resolves to the stop branch,
the loop terminates immediately, without processing the pending message and
without processing anything queued behind it. -/
theorem stop_branch_terminates (s : SState Spec) (r : ChanRead Spec)
    (rest : List (SelectCase Spec)) :
    selectBranch true (some r) true = some SelectCase.stop ∧
    (selectBranch true none true : Option (SelectCase Spec)) = some SelectCase.stop ∧
    listenStep s SelectCase.stop = (s, [], LoopOutcome.terminate) ∧
    listenProviders s (SelectCase.stop :: rest) = (s, []) := by
  refine ⟨rfl, rfl, rfl, ?_⟩
  exact listenProviders_cons_terminate s s [] _ rest rfl

/-- C7: a change message whose snapshot is nil, or a receive from a closed
configuration channel, terminates the watch loop immediately: the iteration
returns `terminate`, the state is untouched, no action is performed, and any
messages queued behind it are never processed. -/
theorem nil_or_closed_terminates (s : SState Spec) (m : ConfigurationChanged Spec)
    (rest : List (SelectCase Spec)) :
    listenStep s (SelectCase.recv ChanRead.closed) = (s, [], LoopOutcome.terminate) ∧
    listenProviders s (SelectCase.recv ChanRead.closed :: rest) = (s, []) ∧
    (m.Configurations = none →
      listenStep s (SelectCase.recv (ChanRead.msg m)) = (s, [], LoopOutcome.terminate) ∧
      listenProviders s (SelectCase.recv (ChanRead.msg m) :: rest) = (s, [])) := by
  refine ⟨rfl, listenProviders_cons_terminate s s [] _ rest rfl, ?_⟩
  intro h
  have hstep : listenStep s (SelectCase.recv (ChanRead.msg m))
      = (s, [], LoopOutcome.terminate) := by
    simp [listenStep, h]
  exact ⟨hstep, listenProviders_cons_terminate s s [] _ rest hstep⟩

/-- C7 witness: the termination theorem evaluated on `warmState`, a nil-slice
message, and a nonempty residual queue. -/
theorem nil_or_closed_terminates_witness :
    listenStep warmState (SelectCase.recv (ChanRead.msg ⟨none⟩))
      = (warmState, [], LoopOutcome.terminate) ∧
    listenProviders warmState
      [SelectCase.recv (ChanRead.msg ⟨none⟩),
       SelectCase.recv (ChanRead.msg ⟨some [3]⟩)] = (warmState, []) :=
  (nil_or_closed_terminates warmState ⟨none⟩
    [SelectCase.recv (ChanRead.msg ⟨some [3]⟩)]).2.2 rfl

/-- C8: the initial router handed to `listenAndServe` always carries at least
one route — `startHTTPServers` adds the synthetic `Any("/", NotFound)` route
because the freshly built router has an empty route table — and under the
zero-configured-routes table every request path is answered 404 (either by
the dummy route or by the not-found handler), never by a router fault. -/
theorem empty_routes_serve_404 (cfg : Specification) (path : String) :
    1 ≤ (startHTTPServersRouter cfg).routesCount ∧
    Router.dispatch (startHTTPServersRouter cfg) path = 404 := by
  have hempty : (createRouter cfg).routeList = [] := by
    unfold createRouter Router.use
    cases hreq : cfg.requestID <;> simp
  have hfix : startHTTPServersRouter cfg
      = Router.any (createRouter cfg) "/" Handler.notFound := by
    unfold startHTTPServersRouter
    simp [Router.routesCount, hempty]
  constructor
  · rw [hfix]
    simp [Router.routesCount, Router.any, hempty]
  · rw [hfix]
    unfold Router.dispatch
    split
    · rename_i e _
      cases e.handler
      rfl
    · cases hnf : (Router.any (createRouter cfg) "/" Handler.notFound).notFoundHandler
      rfl

/-- C9: every router produced by `createRouter` has the custom not-found
handler installed, and its middleware chain is exactly metrics/stats, then
request logging, then panic recovery, then distributed tracing (whose mode
is the TLS flag), followed by request-id tagging exactly when it is enabled
by configuration. -/
theorem createRouter_middleware_order (cfg : Specification) :
    (createRouter cfg).notFoundHandler = Handler.notFound ∧
    (createRouter cfg).middlewares =
      [Middleware.stats, Middleware.logger, Middleware.recovery,
       Middleware.openTracing cfg.tlsIsHTTPS]
        ++ (if cfg.requestID then [Middleware.requestID] else []) ∧
    (Middleware.requestID ∈ (createRouter cfg).middlewares ↔ cfg.requestID = true) := by
  unfold createRouter Router.use
  cases hreq : cfg.requestID <;> simp

/-- C10: `Close` is not idempotent — after a completed `Close` (which closed
`stopChan` and `configurationChan`), a second invocation panics on
`close(s.stopChan)`; and the cancellation watcher of `StartWithContext`,
which runs `s.Close()` in its body and again via `defer`, therefore panics
on every context-driven shutdown, from any channel state. -/
theorem close_not_idempotent (s s' : CloseState) (h : Close s = some s') :
    Close s' = none ∧ cancellationWatcher s = none ∧
    (∀ t : CloseState, cancellationWatcher t = none) := by
  have hall : ∀ t : CloseState, cancellationWatcher t = none := by
    intro t
    obtain ⟨a, b⟩ := t
    cases a <;> cases b <;> rfl
  have hs' : s' = { stopChanClosed := true, configurationChanClosed := true } := by
    unfold Close at h
    by_cases ha : s.stopChanClosed
    · simp [ha] at h
    · by_cases hb : s.configurationChanClosed
      · simp [ha, hb] at h
      · simp [ha, hb] at h
        exact h.symm
  refine ⟨?_, hall s, hall⟩
  rw [hs']
  rfl

/-- C10 witness: closing a fresh server succeeds and closes both channels; a
second `Close` on the result panics; the cancellation watcher panics from
every state. -/
theorem close_not_idempotent_witness :
    Close (CloseState.mk true true) = none ∧
    cancellationWatcher (CloseState.mk false false) = none ∧
    (∀ t : CloseState, cancellationWatcher t = none) :=
  close_not_idempotent (CloseState.mk false false) (CloseState.mk true true) rfl

end Janus
